import Mathlib

/-!
Verification development for the iotDash2 backend gateway
(src/backend/server.js) and its email utility
(src/backend/utils/emailService.js).

The backend is a stateless Express proxy.  Each route handler is a pure
function of the outcome of its outbound upstream call(s), so we embed every
handler as a Lean function from upstream outcomes to the HTTP response it
produces.  JSON payloads are modelled by an inductive `Json` value type;
an upstream call outcome is `Except String Json` where the `String` is the
error message (`error.message` in the source).
-/

/-- JSON values, as passed between axios and `res.json`. -/
inductive Json where
  | null : Json
  | bool (b : Bool) : Json
  | num (n : Int) : Json
  | str (s : String) : Json
  | arr (xs : List Json) : Json
  | obj (fields : List (String × Json)) : Json

/-- Field lookup in a JSON object field list (first match wins, as in a JS
object where construction already collapsed duplicate keys). -/
def lookupField : List (String × Json) → String → Option Json
  | [], _ => none
  | (k0, v0) :: rest, k => if k0 = k then some v0 else lookupField rest k

/-- Lookup of a named field of a JSON value; `none` on non-objects. -/
def jsonLookup : Json → String → Option Json
  | .obj fs, k => lookupField fs k
  | _, _ => none

/-- JS object-literal key insertion: assigning key `k` overwrites an existing
entry in place (keeping its position) and otherwise appends at the end. -/
def setField : List (String × Json) → String → Json → List (String × Json)
  | [], k, v => [(k, v)]
  | (k0, v0) :: rest, k, v =>
      if k0 = k then (k0, v) :: rest else (k0, v0) :: setField rest k v

/-- Evaluation of a JS object literal given its written key/value sequence:
later occurrences of a key overwrite earlier ones, keeping the first
position of the first occurrence. -/
def objectLit (fs : List (String × Json)) : List (String × Json) :=
  fs.foldl (fun acc p => setField acc p.1 p.2) []

/-- JS spread `...v` inside an object literal, restricted to JSON values:
an object contributes its fields, an array its index-keyed elements, a
string its index-keyed characters, and primitives contribute nothing. -/
def jsSpread : Json → List (String × Json)
  | .obj fs => fs
  | .arr xs => (xs.enum).map (fun p => (toString p.1, p.2))
  | .str s => (s.data.enum).map (fun p => (toString p.1, Json.str (String.mk [p.2])))
  | _ => []

/-- JS truthiness of an environment variable: `undefined` and the empty
string are falsy, every other string is truthy. -/
def jsTruthy : Option String → Bool
  | none => false
  | some s => !(s == "")

/-- JS `v || dflt` on an optional string: the default is taken when the
value is absent or the empty string. -/
def jsOrString (v : Option String) (dflt : String) : String :=
  match v with
  | some s => if s = "" then dflt else s
  | none => dflt

/-- The process environment read by server.js (lines 6, 17-19). -/
structure Env where
  THINGSPEAK_CHANNEL_ID : Option String
  THINGSPEAK_API_KEY : Option String
  ML_SERVICE_URL : Option String
  PORT : Option String
deriving DecidableEq, Repr

/-- The immutable configuration of a successfully started server. -/
structure ServerConfig where
  channelId : String
  apiKey : String
  mlServiceUrl : String
  port : String
  thingspeakUrl : String
deriving DecidableEq, Repr

/-- The ThingSpeak feed URL baked from the credentials (server.js 27-29). -/
def thingspeakUrlOf (channelId apiKey : String) : String :=
  "https://api.thingspeak.com/channels/" ++ channelId ++
    "/feeds.json?api_key=" ++ apiKey ++ "&results=50"

/-- Startup (server.js 6, 17-29): `PORT = process.env.PORT || 5000`; the
process exits (`none`) when any of the three required variables is falsy,
and otherwise resolves its configuration once. -/
def startServer (env : Env) : Option ServerConfig :=
  if jsTruthy env.THINGSPEAK_CHANNEL_ID && jsTruthy env.THINGSPEAK_API_KEY &&
      jsTruthy env.ML_SERVICE_URL then
    some
      { channelId := env.THINGSPEAK_CHANNEL_ID.getD ""
        apiKey := env.THINGSPEAK_API_KEY.getD ""
        mlServiceUrl := env.ML_SERVICE_URL.getD ""
        port := jsOrString env.PORT "5000"
        thingspeakUrl :=
          thingspeakUrlOf (env.THINGSPEAK_CHANNEL_ID.getD "")
            (env.THINGSPEAK_API_KEY.getD "") }
  else
    none

/-- Response body: JSON (via `res.json`) or a piped byte stream. -/
inductive Body where
  | json (j : Json) : Body
  | stream (bytes : List Nat) : Body

/-- An HTTP response as produced by a handler: status code, the headers the
handler sets explicitly, and the body. -/
structure HttpResponse where
  status : Nat
  headers : List (String × String)
  body : Body

/-- The JSON body of a response, if it has one. -/
def responseJson (r : HttpResponse) : Option Json :=
  match r.body with
  | .json j => some j
  | .stream _ => none

/-- The uniform failure envelope used by every 500 path in server.js. -/
def errorEnvelope (err msg : String) : Json :=
  .obj [("error", .str err), ("message", .str msg)]

/-- GET /health (server.js 34-39). -/
def handleHealth (now : String) : HttpResponse :=
  { status := 200, headers := [],
    body := .json (.obj [("status", .str "Backend running"), ("timestamp", .str now)]) }

/-- GET /api/data (server.js 44-55): on success the upstream payload is
passed through to `res.json` unmodified; on any failure the response is a
500 with the fixed envelope carrying the error message. -/
def handleData : Except String Json → HttpResponse
  | .ok payload => { status := 200, headers := [], body := .json payload }
  | .error msg =>
      { status := 500, headers := [],
        body := .json (errorEnvelope "Failed to fetch ThingSpeak data" msg) }

/-- GET /api/ml/health (server.js 62-76): both branches answer through plain
`res.json`, hence status 200.  On success the body is the object literal
spreading the upstream payload over an initial `mlServiceAvailable: true`;
on failure it is a fixed degraded object with the error message. -/
def handleMlHealth : Except String Json → HttpResponse
  | .ok payload =>
      { status := 200, headers := [],
        body := .json (.obj (objectLit
          (("mlServiceAvailable", Json.bool true) :: jsSpread payload))) }
  | .error msg =>
      { status := 200, headers := [],
        body := .json (.obj
          [("mlServiceAvailable", .bool false),
           ("status", .str "ML service unavailable"),
           ("message", .str msg)]) }

/-- POST /api/ml/detect-anomalies (server.js 79-94), as a function of the
outcome of the forwarded upstream call. -/
def handleDetectAnomalies : Except String Json → HttpResponse
  | .ok payload => { status := 200, headers := [], body := .json payload }
  | .error msg =>
      { status := 500, headers := [],
        body := .json (errorEnvelope "Failed to detect anomalies" msg) }

/-- POST /api/ml/train-model (server.js 97-112). -/
def handleTrainModel : Except String Json → HttpResponse
  | .ok payload => { status := 200, headers := [], body := .json payload }
  | .error msg =>
      { status := 500, headers := [],
        body := .json (errorEnvelope "Failed to train model" msg) }

/-- GET /api/report (server.js 119-133). -/
def handleReport : Except String Json → HttpResponse
  | .ok payload => { status := 200, headers := [], body := .json payload }
  | .error msg =>
      { status := 500, headers := [],
        body := .json (errorEnvelope "Failed to fetch report" msg) }

/-- The successful upstream answer of the PDF route: the value of its
content-disposition header if that header is present, and its byte stream. -/
structure PdfUpstream where
  contentDisposition : Option String
  bytes : List Nat
deriving DecidableEq, Repr

/-- The fallback Content-Disposition of the PDF route (server.js 145). -/
def defaultDisposition : String := "attachment; filename=\"report.pdf\""

/-- GET /api/download-report (server.js 136-157): on success it sets
Content-Disposition to `headers[content-disposition] || default` (JS `||`,
so an absent or empty upstream header falls back), sets Content-Type to
application/pdf, and pipes the upstream stream through; on failure, a 500
envelope. -/
def handleDownloadReport : Except String PdfUpstream → HttpResponse
  | .ok up =>
      { status := 200,
        headers :=
          [("Content-Disposition", jsOrString up.contentDisposition defaultDisposition),
           ("Content-Type", "application/pdf")],
        body := .stream up.bytes }
  | .error msg =>
      { status := 500, headers := [],
        body := .json (errorEnvelope "Failed to download PDF" msg) }

/-- GET /api/status (server.js 162-180): each field starts at `unknown` and
is set to `connected` only when its own probe succeeds; a failed probe is
swallowed by an empty catch, leaving the field at `unknown`.  The response
always goes through plain `res.json`. -/
def handleStatus (tsProbe mlProbe : Except String Json) : HttpResponse :=
  let thingspeakField : String :=
    match tsProbe with
    | .ok _ => "connected"
    | .error _ => "unknown"
  let mlField : String :=
    match mlProbe with
    | .ok _ => "connected"
    | .error _ => "unknown"
  { status := 200, headers := [],
    body := .json (.obj
      [("backend", .str "running"),
       ("thingspeak", .str thingspeakField),
       ("mlService", .str mlField)]) }

/-- 404 fallthrough handler (server.js 185-191). -/
def notFoundResponse (method path : String) : HttpResponse :=
  { status := 404, headers := [],
    body := .json (.obj
      [("error", .str "Route not found"),
       ("path", .str path),
       ("method", .str method)]) }

/-- The behaviour of the two external services during one request: the
outcome each outbound call of server.js would observe.  The /api/status
probes are separate axios calls from the /api/data fetch and the
/api/ml/health probe, so they get their own outcome fields. -/
structure Upstreams where
  thingspeakData : Except String Json
  mlHealth : Except String Json
  mlDetect : Json → Except String Json
  mlTrain : Json → Except String Json
  report : Except String Json
  reportPdf : Except String PdfUpstream
  statusThingspeakProbe : Except String Json
  statusMlProbe : Except String Json

/-- Whether a method/path pair matches one of the eight registered routes
(server.js 34, 44, 62, 79, 97, 119, 136, 162). -/
def matchesRoute (method path : String) : Bool :=
  (method == "GET" && path == "/health") ||
  (method == "GET" && path == "/api/data") ||
  (method == "GET" && path == "/api/ml/health") ||
  (method == "POST" && path == "/api/ml/detect-anomalies") ||
  (method == "POST" && path == "/api/ml/train-model") ||
  (method == "GET" && path == "/api/report") ||
  (method == "GET" && path == "/api/download-report") ||
  (method == "GET" && path == "/api/status")

/-- Express routing of server.js: routes are tried in registration order and
the trailing middleware answers 404 for everything unmatched.  `now` is the
timestamp string the /health route would render; `body` is the parsed JSON
request body forwarded by the two POST proxies. -/
def dispatch (u : Upstreams) (now : String) (method path : String) (body : Json) :
    HttpResponse :=
  if method == "GET" && path == "/health" then handleHealth now
  else if method == "GET" && path == "/api/data" then handleData u.thingspeakData
  else if method == "GET" && path == "/api/ml/health" then handleMlHealth u.mlHealth
  else if method == "POST" && path == "/api/ml/detect-anomalies" then
    handleDetectAnomalies (u.mlDetect body)
  else if method == "POST" && path == "/api/ml/train-model" then
    handleTrainModel (u.mlTrain body)
  else if method == "GET" && path == "/api/report" then handleReport u.report
  else if method == "GET" && path == "/api/download-report" then
    handleDownloadReport u.reportPdf
  else if method == "GET" && path == "/api/status" then
    handleStatus u.statusThingspeakProbe u.statusMlProbe
  else notFoundResponse method path

/-- The whole process: with a misconfigured environment `startServer` is
`none` (process.exit(1) before app.listen), so no request is answered;
otherwise every request is answered by `dispatch`. -/
def serve (env : Env) (u : Upstreams) (now : String) (method path : String)
    (body : Json) : Option HttpResponse :=
  (startServer env).map (fun _ => dispatch u now method path body)

/-- One outbound axios call of server.js: the route making it, its target,
and the timeout option passed to axios (`none` when the call passes no
timeout, in which case axios applies its default of no timeout at all). -/
structure OutboundCall where
  route : String
  target : String
  timeoutMs : Option Nat
deriving DecidableEq, Repr

/-- Every outbound axios call in server.js with its timeout option:
line 46 (10000), line 64 (5000), lines 81-85 (15000), lines 99-103 (20000),
lines 121-124 (15000), lines 138-141 (20000), and the two /api/status
probes at lines 170 and 175, which pass no options object at all. -/
def outboundCalls : List OutboundCall :=
  [{ route := "GET /api/data", target := "THINGSPEAK_URL", timeoutMs := some 10000 },
   { route := "GET /api/ml/health", target := "ML_SERVICE_URL/health", timeoutMs := some 5000 },
   { route := "POST /api/ml/detect-anomalies", target := "ML_SERVICE_URL/api/detect-anomalies", timeoutMs := some 15000 },
   { route := "POST /api/ml/train-model", target := "ML_SERVICE_URL/api/train-model", timeoutMs := some 20000 },
   { route := "GET /api/report", target := "ML_SERVICE_URL/api/report", timeoutMs := some 15000 },
   { route := "GET /api/download-report", target := "ML_SERVICE_URL/api/download-report", timeoutMs := some 20000 },
   { route := "GET /api/status", target := "THINGSPEAK_URL", timeoutMs := none },
   { route := "GET /api/status", target := "ML_SERVICE_URL/health", timeoutMs := none }]

/-- The claim that every outbound upstream call carries a finite timeout. -/
def allCallsHaveTimeout : Bool :=
  outboundCalls.all (fun c => c.timeoutMs.isSome)

/-- Outcome of the provider fetch inside sendAnomalyAlert
(emailService.js 155-164): the provider answered with `response.ok` true
and a parsed JSON body, answered with `response.ok` false, or something
threw (network error, JSON decode error, malformed input while building the
message, ...). -/
inductive FetchOutcome where
  | respOk (result : Json) : FetchOutcome
  | respNotOk (result : Json) : FetchOutcome
  | throws (msg : String) : FetchOutcome

/-- sendAnomalyAlert (emailService.js 19-181) as a function of the
RESEND_API_KEY environment value and the provider outcome.  The whole body
runs inside try/catch, so every path returns a plain result object: missing
or empty key returns the fixed failure (lines 22-25), a thrown error is
caught and wrapped (lines 177-180), a non-ok provider response returns the
provider body as the error (lines 172-175), and an ok response returns
success with the provider body (lines 166-171).  The promise never
rejects. -/
def sendAnomalyAlert (RESEND_API_KEY : Option String) (outcome : FetchOutcome) :
    Json :=
  if !(jsTruthy RESEND_API_KEY) then
    .obj [("success", .bool false), ("error", .str "API key not configured")]
  else
    match outcome with
    | .respOk result => .obj [("success", .bool true), ("data", result)]
    | .respNotOk result => .obj [("success", .bool false), ("error", result)]
    | .throws msg => .obj [("success", .bool false), ("error", .str msg)]

/-- The concrete detect-anomalies request body of the stub scenario. -/
def detectRequestBody : Json :=
  .obj [("field1_data", .arr [.num 1, .num 2, .num 3]),
        ("field2_data", .arr [.num 1, .num 2, .num 3])]

/-- The concrete stub analytics payload of the stub scenario. -/
def stubAnomalyPayload : Json :=
  .obj [("success", .bool true),
        ("anomalies", .arr []),
        ("statistics", .obj
          [("total_points", .num 3), ("mean", .num 2), ("anomaly_percentage", .num 0)])]

/-- The field value /api/status reports for a probe outcome: `connected` on
success, and the initial `unknown` (left in place by the empty catch) on
failure. -/
def probeWord : Except String Json → String
  | .ok _ => "connected"
  | .error _ => "unknown"

/-- A concrete upstream behaviour used to instantiate universally
quantified theorems: telemetry down, analytics detect answering the stub
payload. -/
def stubUpstreams : Upstreams where
  thingspeakData := Except.error "timeout of 10000ms exceeded"
  mlHealth := Except.error "connect ECONNREFUSED 127.0.0.1:5001"
  mlDetect := fun _ => Except.ok stubAnomalyPayload
  mlTrain := fun _ => Except.error "connect ECONNREFUSED 127.0.0.1:5001"
  report := Except.error "connect ECONNREFUSED 127.0.0.1:5001"
  reportPdf := Except.error "connect ECONNREFUSED 127.0.0.1:5001"
  statusThingspeakProbe := Except.error "connect ECONNREFUSED"
  statusMlProbe := Except.ok (Json.obj [("status", Json.str "healthy")])

theorem lookupField_setField_ne (fs : List (String × Json)) (k1 k : String)
    (v : Json) (h : k1 ≠ k) :
    lookupField (setField fs k1 v) k = lookupField fs k := by
  induction fs with
  | nil => simp [setField, lookupField, h]
  | cons p rest ih =>
      obtain ⟨k0, v0⟩ := p
      by_cases hk : k0 = k1
      · subst hk
        simp only [setField, if_pos rfl, lookupField]
        simp [h]
      · simp only [setField, if_neg hk, lookupField]
        by_cases hk0 : k0 = k
        · simp [hk0]
        · simp [hk0, ih]

theorem lookupField_foldl_setField (fs : List (String × Json))
    (acc : List (String × Json)) (k : String) (h : ∀ p ∈ fs, p.1 ≠ k) :
    lookupField (fs.foldl (fun a p => setField a p.1 p.2) acc) k =
      lookupField acc k := by
  induction fs generalizing acc with
  | nil => rfl
  | cons p rest ih =>
      rw [List.foldl_cons,
        ih _ (fun q hq => h q (List.mem_cons_of_mem _ hq))]
      exact lookupField_setField_ne acc p.1 k p.2 (h p (List.mem_cons_self _ _))

theorem lookupField_eq_none_imp (fs : List (String × Json)) (k : String)
    (h : lookupField fs k = none) : ∀ p ∈ fs, p.1 ≠ k := by
  induction fs with
  | nil => intro p hp; cases hp
  | cons q rest ih =>
      intro p hp
      obtain ⟨k0, v0⟩ := q
      by_cases hq : k0 = k
      · simp [lookupField, hq] at h
      · simp only [lookupField, if_neg hq] at h
        rcases List.mem_cons.mp hp with hpq | hpr
        · subst hpq; exact hq
        · exact ih h p hpr

/-- C1: whenever any of the three required environment values (telemetry
channel id, telemetry API key, analytics base URL) is absent or empty, the
process exits at startup and serves no route; when startup succeeds, only
the port falls back to its default 5000 (and a non-empty PORT value is
honoured). -/
theorem C1_startup_validation :
    (∀ env : Env,
        (jsTruthy env.THINGSPEAK_CHANNEL_ID && jsTruthy env.THINGSPEAK_API_KEY &&
          jsTruthy env.ML_SERVICE_URL) = false →
        startServer env = none ∧
        ∀ (u : Upstreams) (now method path : String) (body : Json),
          serve env u now method path body = none) ∧
    (∀ (env : Env) (cfg : ServerConfig), startServer env = some cfg →
        ((env.PORT = none ∨ env.PORT = some "") → cfg.port = "5000") ∧
        (∀ p : String, env.PORT = some p → p ≠ "" → cfg.port = p)) := by
  constructor
  · intro env h
    constructor
    · simp [startServer, h]
    · intro u now method path body
      simp [serve, startServer, h]
  · intro env cfg h
    unfold startServer at h
    split at h
    · have hcfg := Option.some.inj h
      constructor
      · intro hp
        rcases hp with hp | hp <;>
          simp [← hcfg, jsOrString, hp]
      · intro p hp hne
        simp [← hcfg, jsOrString, hp, hne]
    · exact absurd h (by simp)

/-- C2: GET /api/data passes the upstream telemetry payload through to the
caller unmodified on success; on any upstream failure (the call is made
with the 10-second timeout, so timeouts surface here too) it answers 500
with exactly the two-field envelope carrying no feed data. -/
theorem C2_api_data_passthrough :
    (∀ payload : Json, handleData (Except.ok payload) =
      { status := 200, headers := [], body := Body.json payload }) ∧
    (∀ msg : String, handleData (Except.error msg) =
      { status := 500, headers := [],
        body := Body.json (Json.obj
          [("error", Json.str "Failed to fetch ThingSpeak data"),
           ("message", Json.str msg)]) }) ∧
    (outboundCalls.filter (fun c => c.route == "GET /api/data")).map
        OutboundCall.timeoutMs = [some 10000] := by
  refine ⟨fun payload => rfl, fun msg => rfl, ?_⟩
  rfl

/-- C3: POST /api/ml/detect-anomalies answers the upstream analytics
payload exactly unchanged on success and a 500 envelope (never a mix) on
failure; in particular, dispatching the concrete stub request body against
an upstream that answers the stub payload yields exactly that payload. -/
theorem C3_detect_passthrough :
    (∀ payload : Json, handleDetectAnomalies (Except.ok payload) =
      { status := 200, headers := [], body := Body.json payload }) ∧
    (∀ msg : String, handleDetectAnomalies (Except.error msg) =
      { status := 500, headers := [],
        body := Body.json (Json.obj
          [("error", Json.str "Failed to detect anomalies"),
           ("message", Json.str msg)]) }) ∧
    (∀ (u : Upstreams) (now : String),
      u.mlDetect detectRequestBody = Except.ok stubAnomalyPayload →
      dispatch u now "POST" "/api/ml/detect-anomalies" detectRequestBody =
        { status := 200, headers := [], body := Body.json stubAnomalyPayload }) := by
  refine ⟨fun payload => rfl, fun msg => rfl, ?_⟩
  intro u now h
  have hd : dispatch u now "POST" "/api/ml/detect-anomalies" detectRequestBody =
      handleDetectAnomalies (u.mlDetect detectRequestBody) := rfl
  rw [hd, h]
  rfl

/-- Witness for C3: the stub upstream behaviour realises the hypothesis. -/
theorem C3_detect_passthrough_witness :
    dispatch stubUpstreams "2026-01-01T00:00:00.000Z" "POST"
        "/api/ml/detect-anomalies" detectRequestBody =
      { status := 200, headers := [], body := Body.json stubAnomalyPayload } :=
  C3_detect_passthrough.2.2 stubUpstreams "2026-01-01T00:00:00.000Z" rfl

/-- Witness for C1: a concrete environment missing the channel id starts
nothing, and a concrete fully-provided environment without PORT gets port
5000. -/
theorem C1_startup_validation_witness :
    startServer
        (Env.mk none (some "DUMMYKEY") (some "http://localhost:5001") (some "3000")) =
      none ∧
    (ServerConfig.mk "1234567" "DUMMYKEY" "http://localhost:5001" "5000"
        (thingspeakUrlOf "1234567" "DUMMYKEY")).port = "5000" :=
  ⟨(C1_startup_validation.1
      (Env.mk none (some "DUMMYKEY") (some "http://localhost:5001") (some "3000"))
      (by decide)).1,
   (C1_startup_validation.2
      (Env.mk (some "1234567") (some "DUMMYKEY") (some "http://localhost:5001") none)
      (ServerConfig.mk "1234567" "DUMMYKEY" "http://localhost:5001" "5000"
        (thingspeakUrlOf "1234567" "DUMMYKEY"))
      rfl).1 (Or.inl rfl)⟩

/-- C4 counterexample: with the telemetry probe failing and the analytics
probe succeeding, /api/status reports thingspeak as the string `unknown`
(the handler leaves the initial value in place on failure), which differs
from the `unavailable` the claim states. -/
theorem C4_status_counterexample :
    responseJson (handleStatus (Except.error "connect ECONNREFUSED")
        (Except.ok (Json.obj [("status", Json.str "healthy")]))) =
      some (Json.obj [("backend", Json.str "running"),
                      ("thingspeak", Json.str "unknown"),
                      ("mlService", Json.str "connected")]) ∧
    "unknown" ≠ "unavailable" :=
  ⟨rfl, by decide⟩

/-- C4 amended: whenever the telemetry probe fails and the analytics probe
succeeds, /api/status answers 200 with backend running, thingspeak
`unknown` (not `unavailable`) and mlService `connected`; the response is a
function of the probe outcomes alone, so repeated calls under the same
upstream behaviour yield the same result. -/
theorem C4_status_amended :
    ∀ (msg : String) (payload : Json),
      handleStatus (Except.error msg) (Except.ok payload) =
        { status := 200, headers := [],
          body := Body.json (Json.obj
            [("backend", Json.str "running"),
             ("thingspeak", Json.str "unknown"),
             ("mlService", Json.str "connected")]) } :=
  fun _ _ => rfl

/-- C5: for every combination of probe outcomes /api/status answers 200
with the composite JSON object; each field depends only on its own probe,
so failure of one upstream never hides the result of the other. -/
theorem C5_status_absorbs_failures :
    ∀ ts ml : Except String Json,
      (handleStatus ts ml).status = 200 ∧
      responseJson (handleStatus ts ml) =
        some (Json.obj [("backend", Json.str "running"),
                        ("thingspeak", Json.str (probeWord ts)),
                        ("mlService", Json.str (probeWord ml))]) ∧
      (∀ ml2 : Except String Json,
        jsonLookup ((responseJson (handleStatus ts ml)).getD Json.null) "thingspeak" =
          jsonLookup ((responseJson (handleStatus ts ml2)).getD Json.null) "thingspeak") ∧
      (∀ ts2 : Except String Json,
        jsonLookup ((responseJson (handleStatus ts ml)).getD Json.null) "mlService" =
          jsonLookup ((responseJson (handleStatus ts2 ml)).getD Json.null) "mlService") := by
  intro ts ml
  refine ⟨?_, ?_, ?_, ?_⟩
  · cases ts <;> cases ml <;> rfl
  · cases ts <;> cases ml <;> rfl
  · intro ml2; cases ts <;> cases ml <;> cases ml2 <;> rfl
  · intro ts2; cases ts <;> cases ml <;> cases ts2 <;> rfl

/-- C6 counterexample: an upstream response that does supply a
content-disposition header, with the empty string as its value, is not
preserved: JS `||` treats it as falsy and the route answers the fixed
default instead of the supplied header. -/
theorem C6_download_counterexample :
    (handleDownloadReport (Except.ok
        { contentDisposition := some "", bytes := [37, 80, 68, 70] })).headers =
      [("Content-Disposition", "attachment; filename=\"report.pdf\""),
       ("Content-Type", "application/pdf")] ∧
    "attachment; filename=\"report.pdf\"" ≠ "" :=
  ⟨rfl, by decide⟩

/-- C6 amended: on upstream success the route sets Content-Type to
application/pdf and passes the byte stream through unmodified; it uses the
upstream content-disposition header when present and non-empty, and falls
back to the fixed default when the header is absent or empty; upstream
failure yields the 500 envelope. -/
theorem C6_download_amended :
    (∀ (s : String) (bytes : List Nat), s ≠ "" →
      handleDownloadReport (Except.ok { contentDisposition := some s, bytes := bytes }) =
        { status := 200,
          headers := [("Content-Disposition", s), ("Content-Type", "application/pdf")],
          body := Body.stream bytes }) ∧
    (∀ bytes : List Nat,
      handleDownloadReport (Except.ok { contentDisposition := none, bytes := bytes }) =
        { status := 200,
          headers := [("Content-Disposition", defaultDisposition),
                      ("Content-Type", "application/pdf")],
          body := Body.stream bytes }) ∧
    (∀ bytes : List Nat,
      handleDownloadReport (Except.ok { contentDisposition := some "", bytes := bytes }) =
        { status := 200,
          headers := [("Content-Disposition", defaultDisposition),
                      ("Content-Type", "application/pdf")],
          body := Body.stream bytes }) ∧
    (∀ msg : String, handleDownloadReport (Except.error msg) =
      { status := 500, headers := [],
        body := Body.json (Json.obj
          [("error", Json.str "Failed to download PDF"),
           ("message", Json.str msg)]) }) := by
  refine ⟨?_, fun bytes => rfl, fun bytes => rfl, fun msg => rfl⟩
  intro s bytes h
  simp [handleDownloadReport, jsOrString, h]

/-- Witness for C6 amended: a concrete non-empty upstream header is
preserved verbatim. -/
theorem C6_download_amended_witness :
    handleDownloadReport (Except.ok
        { contentDisposition := some "attachment; filename=\"iot_report.pdf\"",
          bytes := [37, 80, 68, 70, 45] }) =
      { status := 200,
        headers := [("Content-Disposition", "attachment; filename=\"iot_report.pdf\""),
                    ("Content-Type", "application/pdf")],
        body := Body.stream [37, 80, 68, 70, 45] } :=
  C6_download_amended.1 "attachment; filename=\"iot_report.pdf\"" [37, 80, 68, 70, 45]
    (by decide)

/-- C7: every request whose method/path pair matches none of the eight
registered routes falls through to the trailing middleware and gets a 404
with a JSON envelope naming the requested path and method. -/
theorem C7_unmatched_404 :
    ∀ (u : Upstreams) (now method path : String) (body : Json),
      matchesRoute method path = false →
      dispatch u now method path body = notFoundResponse method path ∧
      (dispatch u now method path body).status = 404 ∧
      responseJson (dispatch u now method path body) =
        some (Json.obj [("error", Json.str "Route not found"),
                        ("path", Json.str path),
                        ("method", Json.str method)]) := by
  intro u now method path body h
  simp only [matchesRoute, Bool.or_eq_false_iff] at h
  obtain ⟨⟨⟨⟨⟨⟨⟨h1, h2⟩, h3⟩, h4⟩, h5⟩, h6⟩, h7⟩, h8⟩ := h
  have hd : dispatch u now method path body = notFoundResponse method path := by
    simp [dispatch, h1, h2, h3, h4, h5, h6, h7, h8]
  exact ⟨hd, by rw [hd]; rfl, by rw [hd]; rfl⟩

/-- Witness for C7: the concrete unknown route GET /api/nonexistent. -/
theorem C7_unmatched_404_witness :
    dispatch stubUpstreams "2026-01-01T00:00:00.000Z" "GET" "/api/nonexistent"
        Json.null =
      notFoundResponse "GET" "/api/nonexistent" :=
  (C7_unmatched_404 stubUpstreams "2026-01-01T00:00:00.000Z" "GET"
    "/api/nonexistent" Json.null (by decide)).1

/-- C8: GET /api/ml/health answers status 200 for every upstream outcome
(never an error status, and as a total function it never throws and is
stable across repeated calls); an unreachable upstream yields the degraded
body with mlServiceAvailable false, and a reachable upstream yields
mlServiceAvailable true spread-merged with the raw upstream payload (true
being reported whenever the payload does not itself carry that key). -/
theorem C8_ml_health_never_errors :
    (∀ r : Except String Json, (handleMlHealth r).status = 200) ∧
    (∀ msg : String, handleMlHealth (Except.error msg) =
      { status := 200, headers := [],
        body := Body.json (Json.obj
          [("mlServiceAvailable", Json.bool false),
           ("status", Json.str "ML service unavailable"),
           ("message", Json.str msg)]) }) ∧
    (∀ payload : Json, handleMlHealth (Except.ok payload) =
      { status := 200, headers := [],
        body := Body.json (Json.obj (objectLit
          (("mlServiceAvailable", Json.bool true) :: jsSpread payload))) }) ∧
    (∀ fields : List (String × Json),
      lookupField fields "mlServiceAvailable" = none →
      jsonLookup ((responseJson (handleMlHealth
          (Except.ok (Json.obj fields)))).getD Json.null) "mlServiceAvailable" =
        some (Json.bool true)) := by
  refine ⟨fun r => ?_, fun msg => rfl, fun payload => rfl, ?_⟩
  · cases r <;> rfl
  · intro fields h
    show jsonLookup (Json.obj (objectLit
        (("mlServiceAvailable", Json.bool true) :: jsSpread (Json.obj fields))))
        "mlServiceAvailable" = some (Json.bool true)
    show lookupField (objectLit
        (("mlServiceAvailable", Json.bool true) :: fields)) "mlServiceAvailable" =
      some (Json.bool true)
    unfold objectLit
    rw [List.foldl_cons,
      lookupField_foldl_setField fields _ _ (lookupField_eq_none_imp fields _ h)]
    rfl

/-- Witness for C8: a concrete reachable payload without the key reports
mlServiceAvailable true. -/
theorem C8_ml_health_never_errors_witness :
    jsonLookup ((responseJson (handleMlHealth (Except.ok
        (Json.obj [("status", Json.str "healthy")])))).getD Json.null)
        "mlServiceAvailable" =
      some (Json.bool true) :=
  C8_ml_health_never_errors.2.2.2 [("status", Json.str "healthy")] rfl

/-- C9 counterexample: the two /api/status probes are outbound calls made
with no timeout option at all, so the claim that every outbound upstream
call carries a configured finite timeout is false. -/
theorem C9_timeout_counterexample :
    OutboundCall.mk "GET /api/status" "THINGSPEAK_URL" none ∈ outboundCalls ∧
    allCallsHaveTimeout = false := by
  constructor
  · decide
  · rfl

/-- C9 amended: every outbound upstream call of the six proxy routes
carries its configured finite timeout (data 10s, ml health 5s, detect 15s,
train 20s, report 15s, pdf 20s); the only calls without one are the two
/api/status probes, which pass no timeout and hence are unbounded. -/
theorem C9_timeouts_amended :
    ∀ c ∈ outboundCalls,
      (c.route ≠ "GET /api/status" → c.timeoutMs.isSome = true) ∧
      (c.timeoutMs = none → c.route = "GET /api/status") ∧
      (c.route = "GET /api/data" → c.timeoutMs = some 10000) ∧
      (c.route = "GET /api/ml/health" → c.timeoutMs = some 5000) ∧
      (c.route = "POST /api/ml/detect-anomalies" → c.timeoutMs = some 15000) ∧
      (c.route = "POST /api/ml/train-model" → c.timeoutMs = some 20000) ∧
      (c.route = "GET /api/report" → c.timeoutMs = some 15000) ∧
      (c.route = "GET /api/download-report" → c.timeoutMs = some 20000) := by
  decide

/-- Witness for C9 amended: the /api/data call is in the table and carries
its 10-second timeout. -/
theorem C9_timeouts_amended_witness :
    (OutboundCall.mk "GET /api/data" "THINGSPEAK_URL" (some 10000)).timeoutMs =
      some 10000 :=
  (C9_timeouts_amended
    (OutboundCall.mk "GET /api/data" "THINGSPEAK_URL" (some 10000))
    (by decide)).2.2.1 rfl

/-- C10: sendAnomalyAlert resolves on every path with an object carrying a
boolean success field; a missing or empty API key, a thrown error (network
failure, decode failure, malformed input) and a non-ok provider response
each resolve to success false with an error field, so an email failure can
never make the calling request fail. -/
theorem C10_email_never_rejects :
    (∀ (key : Option String) (o : FetchOutcome), ∃ b : Bool,
      jsonLookup (sendAnomalyAlert key o) "success" = some (Json.bool b)) ∧
    (∀ (key : Option String) (o : FetchOutcome), jsTruthy key = false →
      sendAnomalyAlert key o =
        Json.obj [("success", Json.bool false),
                  ("error", Json.str "API key not configured")]) ∧
    (∀ (key : Option String) (msg : String), jsTruthy key = true →
      sendAnomalyAlert key (FetchOutcome.throws msg) =
        Json.obj [("success", Json.bool false), ("error", Json.str msg)]) ∧
    (∀ (key : Option String) (result : Json), jsTruthy key = true →
      sendAnomalyAlert key (FetchOutcome.respNotOk result) =
        Json.obj [("success", Json.bool false), ("error", result)]) ∧
    (∀ (key : Option String) (result : Json), jsTruthy key = true →
      sendAnomalyAlert key (FetchOutcome.respOk result) =
        Json.obj [("success", Json.bool true), ("data", result)]) := by
  refine ⟨?_, ?_, ?_, ?_, ?_⟩
  · intro key o
    by_cases hk : jsTruthy key = true
    · cases o with
      | respOk r => exact ⟨true, by simp [sendAnomalyAlert, hk, jsonLookup, lookupField]⟩
      | respNotOk r => exact ⟨false, by simp [sendAnomalyAlert, hk, jsonLookup, lookupField]⟩
      | throws m => exact ⟨false, by simp [sendAnomalyAlert, hk, jsonLookup, lookupField]⟩
    · have hk2 : jsTruthy key = false := by
        revert hk; cases jsTruthy key <;> simp
      exact ⟨false, by simp [sendAnomalyAlert, hk2, jsonLookup, lookupField]⟩
  · intro key o h; simp [sendAnomalyAlert, h]
  · intro key msg h; simp [sendAnomalyAlert, h]
  · intro key result h; simp [sendAnomalyAlert, h]
  · intro key result h; simp [sendAnomalyAlert, h]

/-- Witness for C10: with a configured key and a thrown network error the
result is the resolved failure object. -/
theorem C10_email_never_rejects_witness :
    sendAnomalyAlert (some "re_dummy_key")
        (FetchOutcome.throws "request to https://api.resend.com/emails failed") =
      Json.obj [("success", Json.bool false),
                ("error", Json.str "request to https://api.resend.com/emails failed")] :=
  C10_email_never_rejects.2.2.1 (some "re_dummy_key")
    "request to https://api.resend.com/emails failed" rfl
